import Mathlib

/-!
Shallow embedding of the GStreamer instant-replay orchestration layer
(`src/main.cpp`) and proofs about it.

The embedding models:
* hardware-capability detection (`detect_hardware_accel`) over an abstract
  plugin registry, modelled as a predicate `String → Bool` telling which
  plugin features `gst_registry_lookup_feature` finds;
* codec-element selection (`get_decoder_element` / `get_encoder_element`);
* the RTSP media-factory launch string chosen in `create_rtsp_server`;
* the buffering branch of `bus_callback` (level-triggered pause/resume);
* the dynamic-pad linking callback `on_pad_added`;
* ingest-pipeline construction `create_input_pipeline` with an explicit
  allocation/release ledger;
* command-line parsing `parse_arguments` (with `std::stoi` modelled as a
  leading-integer parse that can fail, i.e. throw) and the control flow of
  `main` down to its exit code.
-/

namespace Replay

/-- `enum HWAccelType` from `main.cpp` lines 51-56. -/
inductive HWAccelType where
  | none
  | nvidia
  | vaapi
  | msdk
deriving DecidableEq, Repr, Fintype

/-- `detect_hardware_accel` (`main.cpp` lines 58-87): the registry is probed
for the three hardware *decoder* features in a fixed order and the first hit
wins; `reg` answers `gst_registry_lookup_feature` queries. -/
def detect_hardware_accel (reg : String → Bool) : HWAccelType :=
  if reg "nvh264dec" then HWAccelType.nvidia
  else if reg "vaapih264dec" then HWAccelType.vaapi
  else if reg "msdkh264dec" then HWAccelType.msdk
  else HWAccelType.none

/-- `get_decoder_element` (`main.cpp` lines 90-97). -/
def get_decoder_element : HWAccelType → String
  | HWAccelType.nvidia => "nvh264dec"
  | HWAccelType.vaapi => "vaapih264dec"
  | HWAccelType.msdk => "msdkh264dec"
  | HWAccelType.none => "avdec_h264"

/-- `get_encoder_element` (`main.cpp` lines 100-107). -/
def get_encoder_element : HWAccelType → String
  | HWAccelType.nvidia => "nvh264enc"
  | HWAccelType.vaapi => "vaapih264enc"
  | HWAccelType.msdk => "msdkh264enc"
  | HWAccelType.none => "x264enc"

/-- The codec pair the Element Selector yields for a detected backend. -/
def selected_pair (reg : String → Bool) : String × String :=
  (get_decoder_element (detect_hardware_accel reg),
   get_encoder_element (detect_hardware_accel reg))

/-- The fixed probe order of the hardware backends in
`detect_hardware_accel`. -/
def hw_priority_order : List HWAccelType :=
  [HWAccelType.nvidia, HWAccelType.vaapi, HWAccelType.msdk]

/-- Position of a backend in the fixed priority order (software last). -/
def priority_rank : HWAccelType → Nat
  | HWAccelType.nvidia => 0
  | HWAccelType.vaapi => 1
  | HWAccelType.msdk => 2
  | HWAccelType.none => 3

/-- A backend counts as present in a capability report exactly when the
feature `detect_hardware_accel` probes for it is in the registry; the
software backend is always present. -/
def backend_present (reg : String → Bool) (b : HWAccelType) : Prop :=
  b = HWAccelType.none ∨ reg (get_decoder_element b) = true

instance (reg : String → Bool) (b : HWAccelType) :
    Decidable (backend_present reg b) := by
  unfold backend_present; infer_instance

/-- A concrete registry that has the NVIDIA decoder feature and nothing
else — in particular no NVIDIA encoder feature. -/
def reg_nvdec_only : String → Bool := fun s => s == "nvh264dec"

/-- A concrete registry holding all three hardware decoder features. -/
def reg_all_hw : String → Bool := fun s =>
  s == "nvh264dec" || s == "vaapih264dec" || s == "msdkh264dec"

lemma detect_eq_first_match (reg : String → Bool) :
    detect_hardware_accel reg =
      (hw_priority_order.find? (fun b => reg (get_decoder_element b))).getD
        HWAccelType.none := by
  cases h1 : reg "nvh264dec" <;> cases h2 : reg "vaapih264dec" <;>
    cases h3 : reg "msdkh264dec" <;>
      simp [detect_hardware_accel, hw_priority_order, get_decoder_element,
        List.find?, h1, h2, h3]

lemma detect_rank_le (reg : String → Bool) (b : HWAccelType)
    (hb : backend_present reg b) :
    priority_rank (detect_hardware_accel reg) ≤ priority_rank b := by
  cases b with
  | none => cases detect_hardware_accel reg <;> simp [priority_rank]
  | nvidia =>
      rcases hb with h | h
      · cases h
      · simp [get_decoder_element] at h
        simp [detect_hardware_accel, h, priority_rank]
  | vaapi =>
      rcases hb with h | h
      · cases h
      · simp [get_decoder_element] at h
        cases h1 : reg "nvh264dec" <;>
          simp [detect_hardware_accel, h, h1, priority_rank]
  | msdk =>
      rcases hb with h | h
      · cases h
      · simp [get_decoder_element] at h
        cases h1 : reg "nvh264dec" <;> cases h2 : reg "vaapih264dec" <;>
          simp [detect_hardware_accel, h, h1, h2, priority_rank]

lemma decoder_element_injective :
    ∀ a b : HWAccelType, get_decoder_element a = get_decoder_element b → a = b := by
  decide

/-- Claim C6: for every registry in which none of the hardware backends'
probed features (NVIDIA, VAAPI, MSDK) is present, the selection is the
software pair `avdec_h264` / `x264enc`. -/
theorem C6_no_hw_gives_software_pair (reg : String → Bool)
    (h1 : reg "nvh264dec" = false) (h2 : reg "vaapih264dec" = false)
    (h3 : reg "msdkh264dec" = false) :
    selected_pair reg = ("avdec_h264", "x264enc") := by
  simp [selected_pair, detect_hardware_accel, h1, h2, h3,
    get_decoder_element, get_encoder_element]

/-- Witness for C6 at the empty registry. -/
theorem C6_no_hw_gives_software_pair_witness :
    selected_pair (fun _ => false) = ("avdec_h264", "x264enc") :=
  C6_no_hw_gives_software_pair (fun _ => false) rfl rfl rfl

/-- The codec pair of a given backend. -/
def pair_of (b : HWAccelType) : String × String :=
  (get_decoder_element b, get_encoder_element b)

/-- Claim C1 counterexample: a registry holding the NVIDIA decoder feature
but no NVIDIA encoder feature still makes the probe return a hardware
backend, and the selected encoder's element is not present in that
registry: the probe never verifies encode support, so a hardware pair is
returned even though the backend does not support both directions. -/
theorem C1_encoder_not_probed_counterexample :
    detect_hardware_accel reg_nvdec_only ≠ HWAccelType.none ∧
      reg_nvdec_only
        (get_encoder_element (detect_hardware_accel reg_nvdec_only)) = false := by
  constructor
  · decide
  · rfl

/-- Claim C1 (amended): the probe queries only the decoder features, in the
fixed priority order NVIDIA, VAAPI, MSDK, software; the first match is the
single effective backend, used for both decode and encode.  Whenever a
hardware backend is returned its decoder feature is present in the
registry, and the encoder is forced to be the same backend's encoder
element — its own presence in the registry is never checked. -/
theorem C1_probe_first_decoder_match (reg : String → Bool) :
    detect_hardware_accel reg =
      (hw_priority_order.find? (fun b => reg (get_decoder_element b))).getD
        HWAccelType.none ∧
    (detect_hardware_accel reg ≠ HWAccelType.none →
      reg (get_decoder_element (detect_hardware_accel reg)) = true) ∧
    selected_pair reg = pair_of (detect_hardware_accel reg) := by
  refine ⟨detect_eq_first_match reg, ?_, rfl⟩
  intro hne
  cases h1 : reg "nvh264dec" <;> cases h2 : reg "vaapih264dec" <;>
    cases h3 : reg "msdkh264dec" <;>
      simp_all [detect_hardware_accel, get_decoder_element, h1, h2, h3]

/-- Witness for C1's amended theorem at the decoder-only registry. -/
theorem C1_probe_first_decoder_match_witness :
    reg_nvdec_only
      (get_decoder_element (detect_hardware_accel reg_nvdec_only)) = true :=
  (C1_probe_first_decoder_match reg_nvdec_only).2.1 (by decide)

/-- Claim C7 counterexample: with all three hardware decoder features
present, take X = VAAPI and Y = MSDK: both are present and X has higher
priority than Y, yet selection does not return X's pair (NVIDIA, at even
higher priority, wins). -/
theorem C7_pairwise_priority_counterexample :
    backend_present reg_all_hw HWAccelType.vaapi ∧
      backend_present reg_all_hw HWAccelType.msdk ∧
      priority_rank HWAccelType.vaapi < priority_rank HWAccelType.msdk ∧
      selected_pair reg_all_hw ≠ pair_of HWAccelType.vaapi := by
  refine ⟨Or.inr rfl, Or.inr rfl, by decide, ?_⟩
  intro h
  simp [selected_pair, detect_hardware_accel, reg_all_hw, pair_of,
    get_decoder_element, get_encoder_element] at h

/-- Claim C7 (amended): selection follows the fixed priority order: if X
and Y are present and X has strictly higher priority, the selected backend
has priority at least as high as X, and the selection is never Y's codec
pair.  (It is X's pair exactly when X is the highest-priority backend
present, which the original claim left implicit.) -/
theorem C7_higher_priority_wins (reg : String → Bool) (X Y : HWAccelType)
    (hX : backend_present reg X) (_hY : backend_present reg Y)
    (hlt : priority_rank X < priority_rank Y) :
    priority_rank (detect_hardware_accel reg) ≤ priority_rank X ∧
      selected_pair reg ≠ pair_of Y := by
  have hle := detect_rank_le reg X hX
  refine ⟨hle, ?_⟩
  have hne : detect_hardware_accel reg ≠ Y := by
    intro h
    rw [h] at hle
    exact absurd (lt_of_le_of_lt hle hlt) (lt_irrefl _)
  intro hpair
  exact hne (decoder_element_injective _ _ (congrArg Prod.fst hpair))

/-- Witness for C7's amended theorem: NVIDIA and VAAPI both present,
NVIDIA wins and the VAAPI pair is not selected. -/
theorem C7_higher_priority_wins_witness :
    priority_rank (detect_hardware_accel reg_all_hw) ≤
        priority_rank HWAccelType.nvidia ∧
      selected_pair reg_all_hw ≠ pair_of HWAccelType.vaapi :=
  C7_higher_priority_wins reg_all_hw HWAccelType.nvidia HWAccelType.vaapi
    (Or.inr rfl) (Or.inr rfl) (by decide)

/-- The launch string `create_rtsp_server` installs in the media factory
(`main.cpp` lines 323-336): dedicated branches exist only for NVIDIA and
VAAPI; every other detected backend — including MSDK — falls into the
`else` branch with the software codecs.  The `decoder`/`encoder` locals
computed from the Element Selector at lines 320-321 are never used. -/
def create_rtsp_server_launch (hw : HWAccelType) : String :=
  if hw = HWAccelType.nvidia then
    "( filesrc location=/tmp/replay-buffer.h264 ! h264parse ! nvh264dec ! nvh264enc bitrate=4000 ! h264parse ! rtph264pay name=pay0 pt=96 config-interval=1 )"
  else if hw = HWAccelType.vaapi then
    "( filesrc location=/tmp/replay-buffer.h264 ! h264parse ! vaapih264dec ! vaapih264enc bitrate=4000 ! h264parse ! rtph264pay name=pay0 pt=96 config-interval=1 )"
  else
    "( filesrc location=/tmp/replay-buffer.h264 ! h264parse ! avdec_h264 ! x264enc bitrate=4000 tune=zerolatency ! h264parse ! rtph264pay name=pay0 pt=96 config-interval=1 )"

/-- `s` occurs as a substring of `t`. -/
def occurs_in (s t : String) : Prop :=
  List.IsInfix s.data t.data

instance (s t : String) : Decidable (occurs_in s t) := by
  unfold occurs_in; infer_instance

set_option maxRecDepth 100000 in
/-- Claim C2: when the MSDK backend is detected, the Element Selector
yields the MSDK pair, but the playback graph installed by
`create_rtsp_server` is the software branch: it is the very string used
for no hardware, the MSDK decoder and encoder names do not occur in it,
and the software decoder and encoder names do.  The code contradicts its
own selector (whose output it computes and discards) and the README's
MSDK tier `msdkh264dec`/`msdkh264enc`. -/
theorem C2_msdk_launch_uses_software_pair :
    pair_of HWAccelType.msdk = ("msdkh264dec", "msdkh264enc") ∧
    create_rtsp_server_launch HWAccelType.msdk =
      create_rtsp_server_launch HWAccelType.none ∧
    ¬ occurs_in (get_decoder_element HWAccelType.msdk)
        (create_rtsp_server_launch HWAccelType.msdk) ∧
    ¬ occurs_in (get_encoder_element HWAccelType.msdk)
        (create_rtsp_server_launch HWAccelType.msdk) ∧
    occurs_in (get_decoder_element HWAccelType.none)
        (create_rtsp_server_launch HWAccelType.msdk) ∧
    occurs_in (get_encoder_element HWAccelType.none)
        (create_rtsp_server_launch HWAccelType.msdk) := by
  refine ⟨rfl, rfl, by decide, by decide, by decide, by decide⟩

/-- The requested pipeline states the buffering handler switches between. -/
inductive ReqState where
  | paused
  | playing
deriving DecidableEq, Repr

/-- The `GST_MESSAGE_BUFFERING` branch of `bus_callback` (`main.cpp` lines
158-167): a percent below 100 requests `GST_STATE_PAUSED`, otherwise
`GST_STATE_PLAYING`; the request depends on the percent alone. -/
def buffering_target (percent : Int) : ReqState :=
  if percent < 100 then ReqState.paused else ReqState.playing

/-- The sequence of requested states produced by a run of buffering
notifications. -/
def buffering_trace (percents : List Int) : List ReqState :=
  percents.map buffering_target

/-- Number of requested-state changes along a trace, starting from a given
requested state. -/
def count_transitions : ReqState → List ReqState → Nat
  | _, [] => 0
  | s, t :: ts => (if t = s then 0 else 1) + count_transitions t ts

/-- Claim C3: buffering is level-triggered.  Starting from requested state
Playing, the percent sequence [100, 100, 60, 60, 100] yields the requested
trace [Playing, Playing, Paused, Paused, Playing] — exactly two
transitions, Playing→Paused at the first 60 and Paused→Playing at the
final 100 — and re-delivering any percent leaves the requested state it
just established unchanged. -/
theorem C3_buffering_level_triggered :
    buffering_trace [100, 100, 60, 60, 100] =
      [ReqState.playing, ReqState.playing, ReqState.paused,
        ReqState.paused, ReqState.playing] ∧
    count_transitions ReqState.playing (buffering_trace [100, 100, 60, 60, 100]) = 2 ∧
    ∀ p : Int, count_transitions (buffering_target p) (buffering_trace [p]) = 0 := by
  refine ⟨by decide, by decide, ?_⟩
  intro p
  by_cases h : p < 100 <;>
    simp [buffering_trace, buffering_target, count_transitions, h]

/-- `on_pad_added` (`main.cpp` lines 184-219).  The announced pad's
negotiated caps carry a `media` and an `encoding-name` field, each possibly
absent (`gst_structure_get_string` may return NULL); `link_ok` tells
whether `gst_pad_link` succeeds when attempted; `linked` is the current
`gst_pad_is_linked` state of the depayloader's sink pad.  Returns the new
linked state and the number of link attempts performed. -/
def on_pad_added (media encoding : Option String) (link_ok linked : Bool) :
    Bool × Nat :=
  if media = some "video" ∧ encoding = some "H264" then
    if linked = false then
      if link_ok then (true, 1) else (linked, 1)
    else (linked, 0)
  else (linked, 0)

/-- Claim C4: with the entry point not yet linked and the engine accepting
the link, an announced endpoint ends up linked iff its media kind is
"video" and its encoding name is "H264"; an endpoint whose media kind is
"audio" is never linked and never even triggers a link attempt, whatever
the current state. -/
theorem C4_link_iff_video_h264 (media encoding : Option String)
    (link_ok : Bool) (h : link_ok = true) :
    ((on_pad_added media encoding link_ok false).1 = true ↔
      media = some "video" ∧ encoding = some "H264") ∧
    (media = some "audio" →
      ∀ lk st : Bool, on_pad_added media encoding lk st = (st, 0)) := by
  subst h
  constructor
  · by_cases hc : media = some "video" ∧ encoding = some "H264" <;>
      simp [on_pad_added, hc]
  · intro hm lk st
    have : ¬ (media = some "video" ∧ encoding = some "H264") := by
      rintro ⟨hv, -⟩
      rw [hm] at hv
      exact absurd (Option.some_injective _ hv) (by decide)
    simp [on_pad_added, this]

/-- Witness for C4: a video/H264 endpoint on a fresh entry point gets
linked, and an audio endpoint is left alone. -/
theorem C4_link_iff_video_h264_witness :
    ((on_pad_added (some "video") (some "H264") true false).1 = true) ∧
      on_pad_added (some "audio") (some "H264") true false = (false, 0) := by
  constructor
  · exact (C4_link_iff_video_h264 (some "video") (some "H264") true rfl).1.mpr
      ⟨rfl, rfl⟩
  · exact (C4_link_iff_video_h264 (some "audio") (some "H264") true rfl).2
      rfl true false

/-- Claim C5: dynamic linking is idempotent.  Delivering the same matching
announced-endpoint event twice from the unlinked state performs exactly one
link attempt in total, the second delivery leaves the link state unchanged,
and — in general — any event arriving at an already-linked entry point
performs no link attempt and changes nothing. -/
theorem C5_linking_idempotent (media encoding : Option String)
    (link_ok : Bool) (hm : media = some "video") (he : encoding = some "H264")
    (hl : link_ok = true) :
    (on_pad_added media encoding link_ok false).2 +
      (on_pad_added media encoding link_ok
        (on_pad_added media encoding link_ok false).1).2 = 1 ∧
    (on_pad_added media encoding link_ok
        (on_pad_added media encoding link_ok false).1).1 =
      (on_pad_added media encoding link_ok false).1 ∧
    (∀ m e : Option String, ∀ lk : Bool, on_pad_added m e lk true = (true, 0)) := by
  subst hm he hl
  refine ⟨rfl, rfl, ?_⟩
  intro m e lk
  by_cases hc : m = some "video" ∧ e = some "H264" <;> simp [on_pad_added, hc]

/-- Witness for C5 at the concrete video/H264 event. -/
theorem C5_linking_idempotent_witness :
    (on_pad_added (some "video") (some "H264") true false).2 +
      (on_pad_added (some "video") (some "H264") true
        (on_pad_added (some "video") (some "H264") true false).1).2 = 1 :=
  (C5_linking_idempotent (some "video") (some "H264") true rfl rfl rfl).1

/-- Which steps of `create_input_pipeline` the engine lets succeed:
creation of the pipeline bin, of the five elements, and the static link. -/
structure ElemEnv where
  pipeline_ok : Bool
  source_ok : Bool
  depay_ok : Bool
  parse_ok : Bool
  queue_ok : Bool
  filesink_ok : Bool
  link_ok : Bool
deriving DecidableEq, Repr

/-- Result of a construction attempt, with an allocation/release ledger for
the handles `create_input_pipeline` touches. -/
structure BuildOutcome where
  handle : Option String
  allocated : List String
  released : List String
deriving DecidableEq, Repr

/-- `create_input_pipeline` (`main.cpp` lines 222-287).  Branches, in
source order: pipeline bin creation fails (nothing allocated); some element
creation fails (every successfully created element is unreffed one by one,
then the pipeline bin, lines 236-245); the static link fails (the elements
were already added to the bin by `gst_bin_add_many`, which transfers their
ownership, so unreffing the bin at line 278 releases the bin and all five
elements); success. -/
def create_input_pipeline (env : ElemEnv) : BuildOutcome :=
  if env.pipeline_ok = false then
    { handle := none, allocated := [], released := [] }
  else
    let created :=
      (if env.source_ok then ["source"] else []) ++
      (if env.depay_ok then ["depay"] else []) ++
      (if env.parse_ok then ["parse"] else []) ++
      (if env.queue_ok then ["ring-buffer"] else []) ++
      (if env.filesink_ok then ["output"] else [])
    if (env.source_ok && env.depay_ok && env.parse_ok && env.queue_ok &&
        env.filesink_ok) = false then
      { handle := none, allocated := "input-pipeline" :: created,
        released := created ++ ["input-pipeline"] }
    else if env.link_ok = false then
      { handle := none, allocated := "input-pipeline" :: created,
        released := "input-pipeline" :: created }
    else
      { handle := some "input-pipeline",
        allocated := "input-pipeline" :: created, released := [] }

/-- Claim C8: construction returns a null handle exactly when the bin, a
required element, or the static link fails, and in every failure case every
handle that was allocated has been released — no partial pipeline is left
behind. -/
theorem C8_construction_fails_fast (env : ElemEnv) :
    ((create_input_pipeline env).handle = none ↔
      ¬ (env.pipeline_ok = true ∧ env.source_ok = true ∧ env.depay_ok = true ∧
        env.parse_ok = true ∧ env.queue_ok = true ∧ env.filesink_ok = true ∧
        env.link_ok = true)) ∧
    ((create_input_pipeline env).handle = none →
      ∀ r ∈ (create_input_pipeline env).allocated,
        r ∈ (create_input_pipeline env).released) := by
  rcases env with ⟨p, s, d, pa, q, f, l⟩
  cases p <;> cases s <;> cases d <;> cases pa <;> cases q <;> cases f <;>
    cases l <;> decide

/-- Witness for C8: with the parser element missing, construction fails and
releases everything it allocated. -/
theorem C8_construction_fails_fast_witness :
    (create_input_pipeline
        ⟨true, true, true, false, true, true, true⟩).handle = none ∧
      ∀ r ∈ (create_input_pipeline
          ⟨true, true, true, false, true, true, true⟩).allocated,
        r ∈ (create_input_pipeline
          ⟨true, true, true, false, true, true, true⟩).released := by
  constructor
  · exact (C8_construction_fails_fast
      ⟨true, true, true, false, true, true, true⟩).1.mpr (by decide)
  · exact (C8_construction_fails_fast
      ⟨true, true, true, false, true, true, true⟩).2 (by decide)

/-- `struct ReplayConfig` (`main.cpp` lines 29-43). -/
structure ReplayConfig where
  input_rtsp_url : String
  buffer_seconds : Int
  output_rtsp_port : Int
  use_hardware_accel : Bool
  gpu_id : Int
  output_mount_point : String
deriving DecidableEq, Repr

/-- The `ReplayConfig` constructor's defaults (`main.cpp` lines 37-42). -/
def default_config : ReplayConfig :=
  { input_rtsp_url := "", buffer_seconds := 60, output_rtsp_port := 8554,
    use_hardware_accel := true, gpu_id := 0, output_mount_point := "/replay" }

/-- Model of `std::stoi`: optional leading whitespace, optional sign, then
at least one decimal digit (trailing characters ignored).  `none` models
the `std::invalid_argument` exception thrown when no digits are found —
uncaught in `main.cpp`, hence process termination.  Overflow
(`std::out_of_range`) and locale-specific digits are abstracted away. -/
def cpp_stoi (s : String) : Option Int :=
  let cs := s.data.dropWhile Char.isWhitespace
  let signAndRest : Bool × List Char :=
    match cs with
    | '-' :: r => (true, r)
    | '+' :: r => (false, r)
    | r => (false, r)
  let ds := signAndRest.2.takeWhile Char.isDigit
  if ds.isEmpty then none
  else
    let n : Nat := ds.foldl (fun a c => a * 10 + (c.toNat - 48)) 0
    some (if signAndRest.1 then -(n : Int) else (n : Int))

/-- Outcome of `parse_arguments`: returned `true` with a filled
configuration, returned `false` (help or bad usage), or threw out of
`std::stoi` (process aborts). -/
inductive ParseOutcome where
  | ok (config : ReplayConfig)
  | fail
  | crash
deriving DecidableEq, Repr

/-- `parse_arguments` (`main.cpp` lines 360-409) over the argument list
after `argv[0]`.  Each flag taking a value consumes the following argument
if there is one; a value-taking flag that is last on the line fails the
`i + 1 < argc` check and falls through to the unknown-argument branch.
After the loop an empty input URL is rejected. -/
def parse_arguments : List String → ReplayConfig → ParseOutcome
  | [], c =>
      if c.input_rtsp_url = "" then ParseOutcome.fail else ParseOutcome.ok c
  | [arg], c =>
      if arg = "--no-hw" then
        parse_arguments [] { c with use_hardware_accel := false }
      else if arg = "-h" ∨ arg = "--help" then ParseOutcome.fail
      else ParseOutcome.fail
  | arg :: v :: rest, c =>
      if arg = "-i" ∨ arg = "--input" then
        parse_arguments rest { c with input_rtsp_url := v }
      else if arg = "-b" ∨ arg = "--buffer" then
        match cpp_stoi v with
        | some n => parse_arguments rest { c with buffer_seconds := n }
        | none => ParseOutcome.crash
      else if arg = "-p" ∨ arg = "--port" then
        match cpp_stoi v with
        | some n => parse_arguments rest { c with output_rtsp_port := n }
        | none => ParseOutcome.crash
      else if arg = "--no-hw" then
        parse_arguments (v :: rest) { c with use_hardware_accel := false }
      else if arg = "--gpu" then
        match cpp_stoi v with
        | some n => parse_arguments rest { c with gpu_id := n }
        | none => ParseOutcome.crash
      else if arg = "-m" ∨ arg = "--mount" then
        parse_arguments rest { c with output_mount_point := v }
      else if arg = "-h" ∨ arg = "--help" then ParseOutcome.fail
      else ParseOutcome.fail

/-- Forget the `gpu_id` field. -/
def erase_gpu (c : ReplayConfig) : ReplayConfig := { c with gpu_id := 0 }

/-- Forget the `gpu_id` field of a successful parse. -/
def erase_gpu_outcome : ParseOutcome → ParseOutcome
  | ParseOutcome.ok c => ParseOutcome.ok (erase_gpu c)
  | o => o

/-- Two argument lists that differ only in values supplied to `--gpu`,
every such value being accepted by `std::stoi`. -/
inductive GpuVar : List String → List String → Prop
  | nil : GpuVar [] []
  | cons (a : String) {l₁ l₂ : List String} :
      GpuVar l₁ l₂ → GpuVar (a :: l₁) (a :: l₂)
  | gpu (v₁ v₂ : String) (n₁ n₂ : Int) {l₁ l₂ : List String} :
      cpp_stoi v₁ = some n₁ → cpp_stoi v₂ = some n₂ → GpuVar l₁ l₂ →
      GpuVar ("--gpu" :: v₁ :: l₁) ("--gpu" :: v₂ :: l₂)

lemma stoi_some_not_flag (v : String) (n : Int) (h : cpp_stoi v = some n)
    (t : List String) (c : ReplayConfig) :
    parse_arguments (v :: t) c = ParseOutcome.fail := by
  have hne : ∀ f : String, cpp_stoi f = none → ¬ v = f := by
    intro f hf e
    rw [e, hf] at h
    cases h
  cases t with
  | nil =>
      have h1 := hne "--no-hw" (by decide)
      have h2 := hne "-h" (by decide)
      have h3 := hne "--help" (by decide)
      simp [parse_arguments, h1, h2, h3]
  | cons b t2 =>
      have h1 := hne "-i" (by decide)
      have h2 := hne "--input" (by decide)
      have h3 := hne "-b" (by decide)
      have h4 := hne "--buffer" (by decide)
      have h5 := hne "-p" (by decide)
      have h6 := hne "--port" (by decide)
      have h7 := hne "--no-hw" (by decide)
      have h8 := hne "--gpu" (by decide)
      have h9 := hne "-m" (by decide)
      have h10 := hne "--mount" (by decide)
      have h11 := hne "-h" (by decide)
      have h12 := hne "--help" (by decide)
      simp [parse_arguments, h1, h2, h3, h4, h5, h6, h7, h8, h9, h10, h11, h12]


lemma parse_nil_erased {c₁ c₂ : ReplayConfig}
    (h : erase_gpu c₁ = erase_gpu c₂) :
    erase_gpu_outcome (parse_arguments [] c₁) =
      erase_gpu_outcome (parse_arguments [] c₂) := by
  obtain ⟨i₁, b₁, p₁, hw₁, g₁, m₁⟩ := c₁
  obtain ⟨i₂, b₂, p₂, hw₂, g₂, m₂⟩ := c₂
  simp only [erase_gpu, ReplayConfig.mk.injEq, and_true, true_and] at h
  obtain ⟨hi, hb, hp, hh, hm⟩ := h
  subst hi; subst hb; subst hp; subst hh; subst hm
  simp only [parse_arguments]
  split_ifs <;> simp [erase_gpu_outcome, erase_gpu]

set_option maxHeartbeats 3200000 in
lemma parse_gpu_erased (N : Nat) :
    ∀ (l₁ l₂ : List String) (c₁ c₂ : ReplayConfig),
      l₁.length ≤ N → GpuVar l₁ l₂ → erase_gpu c₁ = erase_gpu c₂ →
      erase_gpu_outcome (parse_arguments l₁ c₁) =
        erase_gpu_outcome (parse_arguments l₂ c₂) := by
  induction N with
  | zero =>
      intro l₁ l₂ c₁ c₂ hlen hvar h
      cases hvar with
      | nil => exact parse_nil_erased h
      | cons a rel => simp at hlen
      | gpu v₁ v₂ n₁ n₂ hv₁ hv₂ rel => simp at hlen
  | succ N ih =>
      intro l₁ l₂ c₁ c₂ hlen hvar h
      obtain ⟨i₁, b₁, p₁, hw₁, g₁, m₁⟩ := c₁
      obtain ⟨i₂, b₂, p₂, hw₂, g₂, m₂⟩ := c₂
      simp only [erase_gpu, ReplayConfig.mk.injEq, and_true, true_and] at h
      obtain ⟨hi, hb, hp, hh, hm⟩ := h
      subst hi; subst hb; subst hp; subst hh; subst hm
      cases hvar with
      | nil =>
          simp only [parse_arguments]
          split_ifs <;> simp [erase_gpu_outcome, erase_gpu]
      | cons a rel =>
          cases rel with
          | nil =>
              simp only [parse_arguments]
              split_ifs <;> simp [erase_gpu_outcome, erase_gpu]
          | cons b rel2 =>
              rename_i t₁ t₂
              have hl1 : t₁.length ≤ N := by simp at hlen; omega
              have hl2 : (b :: t₁).length ≤ N := by
                simp at hlen; simp; omega
              simp only [parse_arguments]
              split_ifs with h1 h2 h3 h4 h5 h6 h7
              · exact ih _ _ _ _ hl1 rel2 rfl
              · cases hst : cpp_stoi b with
                | none => rfl
                | some n => exact ih _ _ _ _ hl1 rel2 rfl
              · cases hst : cpp_stoi b with
                | none => rfl
                | some n => exact ih _ _ _ _ hl1 rel2 rfl
              · exact ih _ _ _ _ hl2 (GpuVar.cons b rel2) rfl
              · cases hst : cpp_stoi b with
                | none => rfl
                | some n => exact ih _ _ _ _ hl1 rel2 rfl
              · exact ih _ _ _ _ hl1 rel2 rfl
              · rfl
              · rfl
          | gpu v₁ v₂ n₁ n₂ hv₁ hv₂ rel2 =>
              rename_i t₁ t₂
              have hl1 : t₁.length ≤ N := by simp at hlen; omega
              have hsg : cpp_stoi "--gpu" = none := by decide
              simp only [parse_arguments, hsg, hv₁, hv₂]
              split_ifs <;>
                first
                | rfl
                | exact ih _ _ _ _ hl1 rel2 rfl
                | rw [stoi_some_not_flag v₁ n₁ hv₁,
                    stoi_some_not_flag v₂ n₂ hv₂]
                | simp_all
      | gpu v₁ v₂ n₁ n₂ hv₁ hv₂ rel =>
          rename_i t₁ t₂
          have hl1 : t₁.length ≤ N := by simp at hlen; omega
          simp only [parse_arguments, hv₁, hv₂, if_true]
          exact ih _ _ _ _ hl1 rel rfl

/-- Everything `main` observably does with the parsed configuration after
argument parsing (`main.cpp` lines 455-518): backend detection gated on
`use_hardware_accel`, the ingest side configured from the input URL and
buffer seconds, and the RTSP server configured from the port, the mount
point and the factory launch string.  `gpu_id` is read nowhere. -/
structure Observable where
  hw : HWAccelType
  input_rtsp_url : String
  buffer_seconds : Int
  output_rtsp_port : Int
  output_mount_point : String
  factory_launch : String
deriving DecidableEq, Repr

/-- The observable behavior of `main` after parsing, as a function of the
configuration and the plugin registry. -/
def main_observable (c : ReplayConfig) (reg : String → Bool) : Observable :=
  let hw := if c.use_hardware_accel then detect_hardware_accel reg
    else HWAccelType.none
  { hw := hw, input_rtsp_url := c.input_rtsp_url,
    buffer_seconds := c.buffer_seconds,
    output_rtsp_port := c.output_rtsp_port,
    output_mount_point := c.output_mount_point,
    factory_launch := create_rtsp_server_launch hw }

lemma main_observable_erase (c : ReplayConfig) (reg : String → Bool) :
    main_observable c reg = main_observable (erase_gpu c) reg := rfl

/-- Claim C9 counterexample: the command lines
`-i rtsp://cam/stream --gpu 0` and `-i rtsp://cam/stream --gpu x` differ
only in the value supplied to `--gpu`, yet the first parses successfully
while the second makes `std::stoi` throw (uncaught, aborting the process):
observable behavior is not identical for every pair of command lines
differing only in the `--gpu` value. -/
theorem C9_gpu_crash_counterexample :
    parse_arguments ["-i", "rtsp://cam/stream", "--gpu", "0"] default_config =
      ParseOutcome.ok
        { default_config with input_rtsp_url := "rtsp://cam/stream" } ∧
    parse_arguments ["-i", "rtsp://cam/stream", "--gpu", "x"] default_config =
      ParseOutcome.crash := by
  constructor
  · rfl
  · rfl

/-- Claim C9 (amended): for every pair of command lines that differ only in
the values supplied to `--gpu`, where every such value parses as an
integer, the outcomes of argument parsing agree up to the `gpu_id` field —
and whenever both parses succeed, the observable behavior of `main`
(backend detection, pipeline construction inputs, server configuration) is
identical, since `gpu_id` is never read after parsing.  (If a `--gpu`
value does not parse as an integer the program instead aborts on an
uncaught `std::stoi` exception, so the two runs need not agree.) -/
theorem C9_gpu_value_irrelevant (a₁ a₂ : List String) (hvar : GpuVar a₁ a₂) :
    erase_gpu_outcome (parse_arguments a₁ default_config) =
      erase_gpu_outcome (parse_arguments a₂ default_config) ∧
    ∀ (c₁ c₂ : ReplayConfig) (reg : String → Bool),
      parse_arguments a₁ default_config = ParseOutcome.ok c₁ →
      parse_arguments a₂ default_config = ParseOutcome.ok c₂ →
      main_observable c₁ reg = main_observable c₂ reg := by
  have hmain := parse_gpu_erased a₁.length a₁ a₂ default_config default_config
    (le_refl _) hvar rfl
  refine ⟨hmain, ?_⟩
  intro c₁ c₂ reg h₁ h₂
  rw [h₁, h₂] at hmain
  have herase : erase_gpu c₁ = erase_gpu c₂ := by
    simpa [erase_gpu_outcome] using hmain
  rw [main_observable_erase c₁ reg, main_observable_erase c₂ reg, herase]

/-- Witness for C9's amended theorem on two concrete command lines that
differ only in the integer handed to `--gpu`. -/
theorem C9_gpu_value_irrelevant_witness :
    erase_gpu_outcome
        (parse_arguments ["-i", "u", "--gpu", "1"] default_config) =
      erase_gpu_outcome
        (parse_arguments ["-i", "u", "--gpu", "2"] default_config) :=
  (C9_gpu_value_irrelevant ["-i", "u", "--gpu", "1"]
    ["-i", "u", "--gpu", "2"]
    (GpuVar.cons "-i" (GpuVar.cons "u"
      (GpuVar.gpu "1" "2" 1 2 (by decide) (by decide) GpuVar.nil)))).1

/-- Reasons the `g_main_loop_run` call can return. -/
inductive LoopTermination where
  | fatalError (src msg : String)
  | endOfStream
  | signalQuit (signum : Int)
deriving DecidableEq, Repr

/-- The notification kinds `bus_callback` dispatches on (`main.cpp` lines
119-181). -/
inductive BusMsg where
  | error (src msg : String)
  | warning (src msg : String)
  | eos
  | stateChanged (fromPipeline : Bool)
  | buffering (percent : Int)
  | element (name : String)
deriving DecidableEq, Repr

/-- Whether `bus_callback` calls `g_main_loop_quit` for a message: ERROR
and EOS do; WARNING, STATE_CHANGED, BUFFERING and ELEMENT do not. -/
def bus_quits_loop : BusMsg → Bool
  | BusMsg.error _ _ => true
  | BusMsg.eos => true
  | _ => false

/-- The control flow of `main` (`main.cpp` lines 436-532) down to the
process exit: argument parsing (a `std::stoi` throw aborts the process,
modelled as `none`), plugin check, pipeline construction, RTSP server
creation, attach, and the initial state change each return 1 on failure;
once the main loop runs, its termination reason `term` is never inspected —
the cleanup path at lines 523-531 runs and `main` returns 0. -/
def main_exit (argv : List String) (plugins_ok : Bool) (env : ElemEnv)
    (server_ok attach_ok play_ok : Bool) (term : LoopTermination) :
    Option Int :=
  match parse_arguments argv default_config with
  | ParseOutcome.crash => none
  | ParseOutcome.fail => some 1
  | ParseOutcome.ok _ =>
    if plugins_ok = false then some 1
    else if (create_input_pipeline env).handle = none then some 1
    else if server_ok = false then some 1
    else if attach_ok = false then some 1
    else if play_ok = false then some 1
    else
      match term with
      | LoopTermination.fatalError _ _ => some 0
      | LoopTermination.endOfStream => some 0
      | LoopTermination.signalQuit _ => some 0

/-- Everything before the main loop succeeded. -/
def startup_ok (argv : List String) (plugins_ok : Bool) (env : ElemEnv)
    (server_ok attach_ok play_ok : Bool) : Prop :=
  (∃ c, parse_arguments argv default_config = ParseOutcome.ok c) ∧
  plugins_ok = true ∧ (create_input_pipeline env).handle ≠ none ∧
  server_ok = true ∧ attach_ok = true ∧ play_ok = true

/-- Claim C10: once startup succeeds the process exits with code 0 no
matter why the main loop terminated — a fatal Error notification and an
EndOfStream notification both quit the loop (while a Warning does not) and
lead to the same cleanup path returning 0; exit code 1 arises only from a
failure before the main loop starts. -/
theorem C10_exit_zero_after_start (argv : List String) (plugins_ok : Bool)
    (env : ElemEnv) (server_ok attach_ok play_ok : Bool)
    (t₁ t₂ : LoopTermination) (s m : String) :
    (startup_ok argv plugins_ok env server_ok attach_ok play_ok →
      main_exit argv plugins_ok env server_ok attach_ok play_ok t₁ = some 0) ∧
    main_exit argv plugins_ok env server_ok attach_ok play_ok t₁ =
      main_exit argv plugins_ok env server_ok attach_ok play_ok t₂ ∧
    (main_exit argv plugins_ok env server_ok attach_ok play_ok t₁ = some 1 →
      ¬ startup_ok argv plugins_ok env server_ok attach_ok play_ok) ∧
    bus_quits_loop (BusMsg.error s m) = true ∧
    bus_quits_loop BusMsg.eos = true ∧
    bus_quits_loop (BusMsg.warning s m) = false := by
  refine ⟨?_, ?_, ?_, rfl, rfl, rfl⟩
  · rintro ⟨⟨c, hc⟩, hpl, hpipe, hs, ha, hplay⟩
    simp only [main_exit, hc, hpl, hs, ha, hplay]
    simp only [Bool.true_eq_false, if_false, if_neg hpipe]
    cases t₁ <;> rfl
  · simp only [main_exit]
    cases hp : parse_arguments argv default_config <;> simp only [hp] <;>
      first
      | rfl
      | (split_ifs <;> first | rfl | (cases t₁ <;> cases t₂ <;> rfl))
  · intro h1
    rintro ⟨⟨c, hc⟩, hpl, hpipe, hs, ha, hplay⟩
    simp only [main_exit, hc, hpl, hs, ha, hplay] at h1
    simp only [Bool.true_eq_false, if_false, if_neg hpipe] at h1
    cases t₁ <;> simp at h1

/-- Witness for C10: a fully successful startup with the loop ended by a
fatal error still exits 0. -/
theorem C10_exit_zero_after_start_witness :
    main_exit ["-i", "u"] true ⟨true, true, true, true, true, true, true⟩
      true true true (LoopTermination.fatalError "src" "msg") = some 0 :=
  (C10_exit_zero_after_start ["-i", "u"] true
    ⟨true, true, true, true, true, true, true⟩ true true true
    (LoopTermination.fatalError "src" "msg") LoopTermination.endOfStream
    "s" "m").1
    ⟨⟨{ default_config with input_rtsp_url := "u" }, rfl⟩, rfl,
      by decide, rfl, rfl, rfl⟩

end Replay
